import Mathlib

/-!
Verification development for the Scizor backend gating-and-dispatch subsystem:
the usage ledger (Firestore user_token collection), the OpenAI client factory,
the table-driven operation dispatch in the AI service, and the error
classification layer.  Definitions are shallow embeddings of the TypeScript
source (`firestore.service.ts`, `ai.service.ts`, `utils.ts`,
`ai.controller.ts`, `auth.controller.ts`); stateful code is embedded as
explicit state passing, JS exceptions as `Except`, and the opaque OpenAI
capability as an oracle argument giving the outcome of the single call the
dispatcher makes.
-/

namespace Scizor

/-! ### String helpers

`strIncludes s pat` mirrors JavaScript `s.includes(pat)`; it is written by
structural recursion on the character lists so that concrete instances reduce
in the kernel. -/

def charsStartWith : List Char → List Char → Bool
  | _, [] => true
  | [], _ :: _ => false
  | c :: cs, p :: ps => c == p && charsStartWith cs ps

def charsContain : List Char → List Char → Bool
  | [], p => p.isEmpty
  | c :: cs, p => charsStartWith (c :: cs) p || charsContain cs p

def strIncludes (s pat : String) : Bool :=
  charsContain s.data pat.data

/-- JavaScript `x || fallback` on a string: the empty string is falsy. -/
def jsOr (s fallback : String) : String :=
  if s = "" then fallback else s

/-- JavaScript `x || fallback` where `x` may be absent (`undefined`) or empty. -/
def jsOrOpt (s : Option String) (fallback : String) : String :=
  match s with
  | none => fallback
  | some v => jsOr v fallback

/-! ### The usage ledger (Firestore `user_token` collection)

A ledger is the sequence of user_token documents; balances are integers as
stored by Firestore (nothing in the store itself prevents negative values).
Timestamps (`created_at`/`updated_at`) are not modelled. -/

abbrev Ledger := List (String × Int)

/-- The `where('user_id','==',userId).limit(1)` query: first matching document. -/
def lookupUser : Ledger → String → Option Int
  | [], _ => none
  | (x, b) :: rest, u => if x = u then some b else lookupUser rest u

/-- `doc.ref.update({tokens: v})` on the first document matching the user. -/
def setBalance : Ledger → String → Int → Ledger
  | [], _, _ => []
  | (x, b) :: rest, u, v =>
    if x = u then (x, v) :: rest else (x, b) :: setBalance rest u v

/-- `userExists` from firestore.service.ts: a limit-1 query is non-empty. -/
def userExists (l : Ledger) (u : String) : Bool :=
  (lookupUser l u).isSome

/-- `createUser` from firestore.service.ts: existence check, then insertion of
a document with `tokens: 20`.  The Firestore-generated document id is opaque in
the source and modelled deterministically as `"doc-" ++ u`.  The thrown
`Error('User already exists')` is wrapped by the surrounding catch into
`Error('Failed to create user: ...')`. -/
def firestoreCreateUser (l : Ledger) (u : String) : Except String String × Ledger :=
  if userExists l u then
    (.error "Failed to create user: User already exists", l)
  else
    (.ok ("doc-" ++ u), l ++ [(u, 20)])

/-- `updateUserToken` from firestore.service.ts: existence check followed by a
separate unconditional write of the given token count (the non-atomic
read-then-write pattern; no balance check). -/
def updateUserToken (l : Ledger) (u : String) (tokens : Int) :
    Except String (String × Int) × Ledger :=
  if userExists l u then
    (.ok (u, tokens), setBalance l u tokens)
  else
    (.error "Failed to update user token: User not found", l)

/-- Outcome record of the token deduction, `{success, message, remainingTokens}`. -/
structure DeductOutcome where
  success : Bool
  message : String
  remainingTokens : Int
deriving DecidableEq

/-- Modelled from the spec: `deductUserTokens` of firestore.service.ts is not in
the source tree (only its caller `deductTokensForOperation` is), so the spend is
modelled from §4.2 of the spec: it fails with the not-found failure when the user
is absent, fails with the insufficient-balance failure when `balance < cost`, and
otherwise atomically decrements the balance by `cost` and reports the remaining
balance.  The failure messages carry the substrings the in-source caller
classifies on (`'User not found'`, `'Insufficient tokens'`). -/
def deductUserTokens (l : Ledger) (u : String) (cost : Int) : DeductOutcome × Ledger :=
  match lookupUser l u with
  | none => (⟨false, "User not found", 0⟩, l)
  | some bal =>
    if bal < cost then
      (⟨false, "Insufficient tokens", bal⟩, l)
    else
      (⟨true, "", bal - cost⟩, setBalance l u (bal - cost))

/-! ### Errors

JS exceptions thrown by the service layer: NestJS `BadRequestException`,
`ServiceUnavailableException`, and plain library/transport errors carrying an
optional HTTP response status and an optional Node error code. -/

inductive JsError where
  | badRequest (message : String)
  | serviceUnavailable (message : String)
  | jsError (message : String) (status : Option Nat) (code : Option String)
deriving DecidableEq

/-- `error.message`. -/
def JsError.message : JsError → String
  | .badRequest m => m
  | .serviceUnavailable m => m
  | .jsError m _ _ => m

/-- `error.constructor.name`, used by the controllers' structured error body. -/
def JsError.ctorName : JsError → String
  | .badRequest _ => "BadRequestException"
  | .serviceUnavailable _ => "ServiceUnavailableException"
  | .jsError _ _ _ => "Error"

/-- `serviceErrorHandler` from utils.ts: rethrows `BadRequestException` as is,
maps `ServiceUnavailableException` and every other failure to a
`BadRequestException` with a user-safe message, discriminating on the HTTP
status when present, otherwise on the Node error code or on whether the raw
message contains the substring `'timeout'`. -/
def serviceErrorHandler (e : JsError) (opName : String) : JsError :=
  match e with
  | .badRequest m => .badRequest m
  | .serviceUnavailable _ =>
    .badRequest "AI service is currently unavailable. Please try again later."
  | .jsError m status code =>
    match status with
    | some s =>
      if s = 401 then
        .badRequest "AI service authentication failed. Please contact support."
      else if s = 429 then
        .badRequest "AI service is experiencing high demand. Please try again in a few minutes."
      else if s = 400 then
        .badRequest ("Invalid request parameters for " ++ opName ++ ". Please check your input and try again.")
      else if s = 500 then
        .badRequest "AI service encountered an internal error. Please try again later."
      else
        .badRequest ("AI service error occurred during " ++ opName ++ ". Please try again later.")
    | none =>
      if code = some "ECONNREFUSED" || code = some "ENOTFOUND" then
        .badRequest "Unable to connect to AI service. Please check your internet connection and try again."
      else if code = some "ETIMEDOUT" || strIncludes m "timeout" then
        .badRequest "AI service request timed out. Please try again."
      else
        .badRequest ("Failed to " ++ opName ++ ". Please try again later.")

/-- `getContentType` from utils.ts. -/
def getContentType (format : String) : String :=
  if format = "mp3" then "audio/mpeg"
  else if format = "opus" then "audio/opus"
  else if format = "aac" then "audio/aac"
  else if format = "flac" then "audio/flac"
  else "audio/mpeg"

/-! ### OpenAI client factory (lazy initialization in ai.service.ts)

The environment carries the configured credential and whether the dynamic
`import('openai')` would succeed; the service state carries the cached client
handle, the `isInitialized` flag and the cached initialization promise.
Awaiting an already-settled promise replays its recorded outcome, so the cached
promise is modelled as the recorded `Except` outcome of the single run. -/

structure Env where
  apiKey : Option String
  importOk : Bool
deriving DecidableEq

instance {ε α : Type} [DecidableEq ε] [DecidableEq α] : DecidableEq (Except ε α) :=
  fun a b =>
    match a, b with
    | .ok x, .ok y =>
      if h : x = y then .isTrue (by rw [h]) else .isFalse (by intro hc; cases hc; exact h rfl)
    | .error x, .error y =>
      if h : x = y then .isTrue (by rw [h]) else .isFalse (by intro hc; cases hc; exact h rfl)
    | .ok _, .error _ => .isFalse (by intro hc; cases hc)
    | .error _, .ok _ => .isFalse (by intro hc; cases hc)

structure ServiceState where
  openai : Option Unit
  isInitialized : Bool
  initPromise : Option (Except JsError Unit)
deriving DecidableEq

def initialServiceState : ServiceState := ⟨none, false, none⟩

/-- `performInitialization`: with no credential it logs and returns normally
(leaving the client unset); with a credential it constructs and caches the
client, or fails with `ServiceUnavailableException` when the library import
fails. -/
def performInitialization (env : Env) (st : ServiceState) :
    Except JsError Unit × ServiceState :=
  match env.apiKey with
  | none => (.ok (), { st with isInitialized := false })
  | some _ =>
    if env.importOk then
      (.ok (), { st with openai := some (), isInitialized := true })
    else
      (.error (.serviceUnavailable "OpenAI package not available. Please install it with: npm install openai"),
        { st with isInitialized := false })

/-- `initializeOpenAI`: single-flight — if an initialization promise is already
cached, awaiting it replays its outcome without re-running
`performInitialization`; otherwise the run happens once and its outcome is
cached for the process lifetime. -/
def initializeOpenAI (env : Env) (st : ServiceState) :
    Except JsError Unit × ServiceState :=
  match st.initPromise with
  | some r => (r, st)
  | none =>
    let (r, st1) := performInitialization env st
    (r, { st1 with initPromise := some r })

/-- The state after the constructor has fired `initializeOpenAI()`. -/
def constructorInit (env : Env) : ServiceState :=
  (initializeOpenAI env initialServiceState).2

/-- `ensureOpenAIInitialized`: re-awaits the cached initialization when the flag
is unset, then fails with `ServiceUnavailableException` when no client handle is
available. -/
def ensureOpenAIInitialized (env : Env) (st : ServiceState) :
    Except JsError Unit × ServiceState :=
  let (r, st1) := if st.isInitialized then (.ok (), st) else initializeOpenAI env st
  match r with
  | .error e => (.error e, st1)
  | .ok _ =>
    if st1.openai = none then
      (.error (.serviceUnavailable "OpenAI service is not available. Please check your configuration."), st1)
    else
      (.ok (), st1)

/-! ### Operation catalog (system prompt tables in ai.service.ts)

The two `prompts` objects, keyed by the enum values of `EnhancementType` and
`ResponseType`; lookup of an unknown key yields `undefined`, and
`prompts[t] || prompts[GENERAL]` falls back to the general entry. -/

def generalEnhancementPrompt : String :=
  "You are an expert at improving prompts to make them more clear, specific, and effective. Add context, specificity, and clarity while maintaining the original intent."

def generalResponsePrompt : String :=
  "You are a helpful AI assistant that provides clear, informative, and well-structured responses."

def enhancementPromptTable : List (String × String) :=
  [("general", generalEnhancementPrompt),
   ("educational", "You are an educational expert who enhances prompts to make them more educational, informative, and suitable for learning purposes. Add educational context and learning objectives."),
   ("code", "You are a programming expert who enhances prompts to make them more specific for coding tasks. Add technical context, programming language specifications, and code requirements."),
   ("creative", "You are a creative writing expert who enhances prompts to make them more inspiring and creative. Add creative context, style guidance, and artistic direction."),
   ("analytical", "You are an analytical expert who enhances prompts to make them more precise for analytical tasks. Add analytical context, data requirements, and logical structure."),
   ("step-by-step", "You are an expert at creating step-by-step instructions. Enhance prompts to include clear steps, sequence, and progression."),
   ("fun", "You are an expert at making prompts more engaging and fun. Add humor, entertainment value, and playful elements while maintaining functionality.")]

def responsePromptTable : List (String × String) :=
  [("general", generalResponsePrompt),
   ("educational", "You are an educational expert that provides informative, well-explained responses suitable for learning and understanding."),
   ("code", "You are a programming expert that provides clear, well-documented code examples and technical explanations."),
   ("creative", "You are a creative expert that provides imaginative, inspiring, and artistic responses."),
   ("analytical", "You are an analytical expert that provides logical, well-reasoned, and data-driven responses."),
   ("step-by-step", "You are an expert at providing clear, sequential, step-by-step instructions and explanations."),
   ("fun", "You are an entertaining AI that provides engaging, humorous, and enjoyable responses while being helpful.")]

/-- Object property access `table[key]`. -/
def tableGet : List (String × String) → String → Option String
  | [], _ => none
  | (k, v) :: rest, t => if k = t then some v else tableGet rest t

/-- `getEnhancementSystemPrompt`: `prompts[enhancementType] || prompts[GENERAL]`. -/
def getEnhancementSystemPrompt (t : String) : String :=
  jsOrOpt (tableGet enhancementPromptTable t) generalEnhancementPrompt

/-- `getResponseSystemPrompt`: `prompts[responseType] || prompts[GENERAL]`. -/
def getResponseSystemPrompt (t : String) : String :=
  jsOrOpt (tableGet responsePromptTable t) generalResponsePrompt

/-- The caller-side default `enhancementType || EnhancementType.GENERAL`
composed with the table lookup. -/
def enhancementSystemPromptFor (t : Option String) : String :=
  getEnhancementSystemPrompt (jsOrOpt t "general")

/-- The caller-side default `responseType || ResponseType.GENERAL` composed with
the table lookup. -/
def responseSystemPromptFor (t : Option String) : String :=
  getResponseSystemPrompt (jsOrOpt t "general")

/-! ### Token deduction layer of ai.service.ts -/

inductive OpKind where
  | ENHANCE_PROMPT
  | GENERATE_RESPONSE
  | TEXT_TO_SPEECH
deriving DecidableEq

/-- The `TOKEN_COSTS` table: every operation costs 1 token. -/
def TOKEN_COSTS : OpKind → Int
  | .ENHANCE_PROMPT => 1
  | .GENERATE_RESPONSE => 1
  | .TEXT_TO_SPEECH => 1

/-- Result record of `deductTokensForOperation`. -/
structure TokenDeduction where
  success : Bool
  message : String
  errorType : Option String
deriving DecidableEq

/-- Lines 441-447 of the service: the error type of a failed deduction is
decided by substring matching on the human-readable failure message. -/
def classifyDeductionFailure (message : String) : String :=
  if strIncludes message "User not found" then "USER_NOT_FOUND"
  else if strIncludes message "Insufficient tokens" then "INSUFFICIENT_TOKENS"
  else "UNKNOWN_ERROR"

/-- `deductTokensForOperation`: resolves the fixed cost, runs the ledger spend,
and on failure attaches the substring-derived error type.  The `SYSTEM_ERROR`
catch branch fires only when the document store itself throws, which is not
modelled (the store is assumed reachable). -/
def deductTokensForOperation (l : Ledger) (userId : String) (op : OpKind) :
    TokenDeduction × Ledger :=
  let cost := TOKEN_COSTS op
  let (result, l1) := deductUserTokens l userId cost
  if result.success then
    (⟨true,
      "Successfully deducted " ++ toString cost ++ " tokens. You have " ++
        toString result.remainingTokens ++ " tokens remaining.",
      none⟩, l1)
  else
    (⟨false, result.message, some (classifyDeductionFailure result.message)⟩, l1)

/-- The `switch (tokenResult.errorType)` block that each of the three operations
runs when the deduction fails (identical in all three call sites). -/
def deductionFailureError (t : TokenDeduction) : JsError :=
  match t.errorType with
  | some "USER_NOT_FOUND" =>
    .badRequest "User account not found. Please check your user ID or create an account."
  | some "INSUFFICIENT_TOKENS" =>
    .badRequest "Insufficient tokens to perform this operation. Please purchase more tokens to continue."
  | some "SYSTEM_ERROR" =>
    .badRequest "System error occurred while processing your request. Please try again later."
  | _ =>
    .badRequest (jsOr t.message "Failed to process token deduction. Please try again.")

/-! ### The three operations of ai.service.ts

Request DTOs: string fields model `!x` falsiness with the empty string (a
missing field and an empty field are both falsy in the source).  Fields that
only parametrize the opaque capability call (enhancement/response sub-type,
free-text context, voice, speed, model) are kept only where a claim depends on
them; the capability call itself is an oracle argument: the chat oracle is the
`choices[0]?.message?.content` of the completion (`none` when the call fails
to produce usable content), the speech oracle is the audio byte buffer. -/

structure EnhanceDto where
  user_id : String
  prompt : String
  enhancementType : Option String
deriving DecidableEq

structure GenerateDto where
  user_id : String
  content : String
  responseType : Option String
deriving DecidableEq

structure TtsDto where
  user_id : String
  text : String
  responseFormat : Option String
deriving DecidableEq

/-- Everything one service call produces: the settled result of the returned
promise, the service state, the ledger, and how many capability invocations
were made. -/
structure OpOutcome (α : Type) where
  result : Except JsError α
  state : ServiceState
  ledger : Ledger
  capCalls : Nat

/-- `enhancePrompt` of ai.service.ts: ensure the client, validate the user id
and the prompt, deduct tokens, invoke the chat capability once, and extract
`choices[0]?.message?.content || prompt`; every throw is routed through
`serviceErrorHandler(error, 'enhance prompt')` by the surrounding catch. -/
def enhancePrompt (env : Env) (st : ServiceState) (l : Ledger)
    (cap : Except JsError (Option String)) (dto : EnhanceDto) : OpOutcome String :=
  let (r1, st1) := ensureOpenAIInitialized env st
  match r1 with
  | .error e => ⟨.error (serviceErrorHandler e "enhance prompt"), st1, l, 0⟩
  | .ok _ =>
    if dto.user_id = "" then
      ⟨.error (serviceErrorHandler (.badRequest "User ID is required to perform this operation.") "enhance prompt"), st1, l, 0⟩
    else if dto.prompt = "" then
      ⟨.error (serviceErrorHandler (.badRequest "Prompt text is required for enhancement.") "enhance prompt"), st1, l, 0⟩
    else
      let (tr, l1) := deductTokensForOperation l dto.user_id .ENHANCE_PROMPT
      if tr.success then
        match cap with
        | .error e => ⟨.error (serviceErrorHandler e "enhance prompt"), st1, l1, 1⟩
        | .ok content => ⟨.ok (jsOrOpt content dto.prompt), st1, l1, 1⟩
      else
        ⟨.error (serviceErrorHandler (deductionFailureError tr) "enhance prompt"), st1, l1, 0⟩

/-- `generateResponse` of ai.service.ts: same pipeline with the `content` field
and the fixed fallback `'Unable to generate response'`. -/
def generateResponse (env : Env) (st : ServiceState) (l : Ledger)
    (cap : Except JsError (Option String)) (dto : GenerateDto) : OpOutcome String :=
  let (r1, st1) := ensureOpenAIInitialized env st
  match r1 with
  | .error e => ⟨.error (serviceErrorHandler e "generate response"), st1, l, 0⟩
  | .ok _ =>
    if dto.user_id = "" then
      ⟨.error (serviceErrorHandler (.badRequest "User ID is required to perform this operation.") "generate response"), st1, l, 0⟩
    else if dto.content = "" then
      ⟨.error (serviceErrorHandler (.badRequest "Content is required to generate a response.") "generate response"), st1, l, 0⟩
    else
      let (tr, l1) := deductTokensForOperation l dto.user_id .GENERATE_RESPONSE
      if tr.success then
        match cap with
        | .error e => ⟨.error (serviceErrorHandler e "generate response"), st1, l1, 1⟩
        | .ok content => ⟨.ok (jsOrOpt content "Unable to generate response"), st1, l1, 1⟩
      else
        ⟨.error (serviceErrorHandler (deductionFailureError tr) "generate response"), st1, l1, 0⟩

/-- `textToSpeech` of ai.service.ts: ensure the client, validate the user id and
the text, deduct tokens, and only then validate the 4096-character limit before
the single speech-capability invocation; the result is the audio buffer with
the content type resolved from `responseFormat || 'mp3'`. -/
def textToSpeech (env : Env) (st : ServiceState) (l : Ledger)
    (cap : Except JsError (List Nat)) (dto : TtsDto) : OpOutcome (List Nat × String) :=
  let (r1, st1) := ensureOpenAIInitialized env st
  match r1 with
  | .error e => ⟨.error (serviceErrorHandler e "convert text to speech"), st1, l, 0⟩
  | .ok _ =>
    if dto.user_id = "" then
      ⟨.error (serviceErrorHandler (.badRequest "User ID is required to perform this operation.") "convert text to speech"), st1, l, 0⟩
    else if dto.text = "" then
      ⟨.error (serviceErrorHandler (.badRequest "Text content is required for text-to-speech conversion.") "convert text to speech"), st1, l, 0⟩
    else
      let (tr, l1) := deductTokensForOperation l dto.user_id .TEXT_TO_SPEECH
      if tr.success then
        if dto.text.length > 4096 then
          ⟨.error (serviceErrorHandler (.badRequest "Text is too long. Maximum length is 4096 characters. Please shorten your text and try again.") "convert text to speech"), st1, l1, 0⟩
        else
          match cap with
          | .error e => ⟨.error (serviceErrorHandler e "convert text to speech"), st1, l1, 1⟩
          | .ok buf => ⟨.ok (buf, getContentType (jsOrOpt dto.responseFormat "mp3")), st1, l1, 1⟩
      else
        ⟨.error (serviceErrorHandler (deductionFailureError tr) "convert text to speech"), st1, l1, 0⟩

/-- The health record returned by the service health check. -/
structure Health where
  status : String
  message : String
deriving DecidableEq

/-- `healthCheck` of ai.service.ts: never throws — any failure of the client
check is caught and reported as status `'unhealthy'`. -/
def healthCheck (env : Env) (st : ServiceState) : Health × ServiceState :=
  let (r, st1) := ensureOpenAIInitialized env st
  match r with
  | .ok _ => (⟨"healthy", "OpenAI service is available and ready"⟩, st1)
  | .error e => (⟨"unhealthy", e.message⟩, st1)

/-! ### Controllers (ai.controller.ts and auth.controller.ts) -/

/-- The structured error body the AI controller builds (`timestamp` is real
time and not modelled). -/
structure ErrorBody where
  message : String
  type : String
deriving DecidableEq

/-- The `{ success, data | error, message }` envelope of the AI controller. -/
structure ApiEnvelope (α : Type) where
  success : Bool
  data : Option α
  error : Option ErrorBody
  message : String

/-- POST /ai/enhance-prompt: catches every service failure and returns the
structured envelope. -/
def controllerEnhancePrompt (env : Env) (st : ServiceState) (l : Ledger)
    (cap : Except JsError (Option String)) (dto : EnhanceDto) :
    ApiEnvelope String × ServiceState × Ledger :=
  let out := enhancePrompt env st l cap dto
  match out.result with
  | .ok r =>
    (⟨true, some r, none, "Prompt enhanced successfully"⟩, out.state, out.ledger)
  | .error e =>
    (⟨false, none, some ⟨jsOr e.message "Failed to enhance prompt", e.ctorName⟩,
      "Prompt enhancement failed"⟩, out.state, out.ledger)

/-- POST /ai/generate-response. -/
def controllerGenerateResponse (env : Env) (st : ServiceState) (l : Ledger)
    (cap : Except JsError (Option String)) (dto : GenerateDto) :
    ApiEnvelope String × ServiceState × Ledger :=
  let out := generateResponse env st l cap dto
  match out.result with
  | .ok r =>
    (⟨true, some r, none, "Response generated successfully"⟩, out.state, out.ledger)
  | .error e =>
    (⟨false, none, some ⟨jsOr e.message "Failed to generate response", e.ctorName⟩,
      "Response generation failed"⟩, out.state, out.ledger)

/-- What POST /ai/text-to-speech writes to the Express response: the raw audio
send on success, a status-400 structured JSON body on failure. -/
inductive TtsHttpResponse where
  | audio (buffer : List Nat) (contentType : String)
  | failure (body : ApiEnvelope Unit)

/-- POST /ai/text-to-speech. -/
def controllerTextToSpeech (env : Env) (st : ServiceState) (l : Ledger)
    (cap : Except JsError (List Nat)) (dto : TtsDto) :
    TtsHttpResponse × ServiceState × Ledger :=
  let out := textToSpeech env st l cap dto
  match out.result with
  | .ok res =>
    (.audio res.1 (getContentType res.2), out.state, out.ledger)
  | .error e =>
    (.failure ⟨false, none, some ⟨jsOr e.message "Failed to convert text to speech", e.ctorName⟩,
      "Text-to-speech conversion failed"⟩, out.state, out.ledger)

/-- GET /ai/health: the controller catch block rethrows (`Except.error` would
model an unhandled fault escaping the boundary), but the service health check is
total, so the rethrow branch is unreachable and the endpoint always settles
with the success envelope. -/
def controllerHealthCheck (env : Env) (st : ServiceState) :
    Except JsError (ApiEnvelope Health) × ServiceState :=
  let (h, st1) := healthCheck env st
  (.ok ⟨true, some h, none, "Health check completed"⟩, st1)

/-- The `data` object of the create-user success envelope. -/
structure CreateUserData where
  document_id : String
  user_id : String
  tokens : Int
deriving DecidableEq

/-- The `{ success, message, data }` envelope of the auth controller. -/
structure AuthEnvelope where
  success : Bool
  message : String
  data : Option CreateUserData
deriving DecidableEq

/-- POST /auth/create-user-token from auth.controller.ts: reports
`tokens: 0` and the message `'User created successfully with 0 tokens'` in the
success envelope, regardless of the balance the Firestore service stored. -/
def controllerCreateUser (l : Ledger) (u : String) : AuthEnvelope × Ledger :=
  match firestoreCreateUser l u with
  | (.ok docId, l1) =>
    (⟨true, "User created successfully with 0 tokens", some ⟨docId, u, 0⟩⟩, l1)
  | (.error m, l1) =>
    (⟨false, m, none⟩, l1)

/-! ### Spec-side definitions

These follow the words of the spec rather than the source, for the claims that
compare the two. -/

/-- The `InvalidInput` failures of §4.4 step 1: the messages the source throws
when the user identifier or the primary content field is missing. -/
def missingFieldMessages : List String :=
  ["User ID is required to perform this operation.",
   "Prompt text is required for enhancement.",
   "Content is required to generate a response.",
   "Text content is required for text-to-speech conversion."]

/-- Whether a failure is one of the missing-field `InvalidInput` errors. -/
def isMissingFieldInvalidInput : JsError → Bool
  | .badRequest m => missingFieldMessages.contains m
  | _ => false

/-- Modelled from the spec (§4.2): the atomic compare-and-decrement `spend`.
The firestore `deductUserTokens` implementation is not in the source tree, so
the spend on a single user balance is modelled as the spec demands — one
indivisible step that either decrements by the cost or fails leaving the
balance untouched.  Returns whether the call succeeded and the resulting
balance. -/
def spend (bal : Int) (cost : Int) : Bool × Int :=
  if cost ≤ bal then (true, bal - cost) else (false, bal)

/-- `k` concurrent `spend(cost=1)` calls against one balance: because each
spend is a single atomic step, any concurrent schedule linearizes to some
sequence of `k` spend steps, and all such sequences are identical up to the
order of indistinguishable calls.  Returns the number of successful calls and
the final balance. -/
def runSpends : Nat → Int → Nat × Int
  | 0, bal => (0, bal)
  | Nat.succ k, bal =>
    let step := spend bal 1
    let rest := runSpends k step.2
    (rest.1 + (if step.1 then 1 else 0), rest.2)

/-! ### Concrete fixtures used by counterexamples and witnesses -/

/-- An environment with a configured credential and a working library. -/
def envReady : Env := ⟨some "sk-test", true⟩

/-- The service state after a successful constructor initialization. -/
def stReady : ServiceState := constructorInit envReady

/-- A primary text one character over the 4096-character limit. -/
def longText : String := String.mk (List.replicate 4097 'a')

/-- An environment with no configured credential. -/
def envNoKey : Env := ⟨none, true⟩

/-- The service state after the constructor ran with no credential configured. -/
def stNoKey : ServiceState := constructorInit envNoKey

/-! ### Helper lemmas -/

lemma longText_length : longText.length = 4097 := by
  show (List.replicate 4097 'a').length = 4097
  exact List.length_replicate 4097 'a'

lemma longText_ne_empty : longText ≠ "" := by
  intro h
  have h2 := longText_length
  rw [h] at h2
  simp [String.length] at h2

lemma ensure_ready (env : Env) (st : ServiceState)
    (hI : st.isInitialized = true) (hO : st.openai = some ()) :
    ensureOpenAIInitialized env st = (.ok (), st) := by
  simp [ensureOpenAIInitialized, hI, hO]

lemma lookupUser_append_self (l : Ledger) (u : String) (b : Int)
    (h : lookupUser l u = none) :
    lookupUser (l ++ [(u, b)]) u = some b := by
  induction l with
  | nil => simp [lookupUser]
  | cons p rest ih =>
    obtain ⟨x, c⟩ := p
    by_cases hx : x = u
    · rw [lookupUser, if_pos hx] at h
      exact absurd h (by simp)
    · rw [lookupUser, if_neg hx] at h
      show lookupUser ((x, c) :: (rest ++ [(u, b)])) u = some b
      rw [lookupUser, if_neg hx]
      exact ih h

lemma tableGet_general_or_mem (tbl : List (String × String)) (u d : String) :
    jsOrOpt (tableGet tbl u) d = d ∨ jsOrOpt (tableGet tbl u) d ∈ tbl.map Prod.snd := by
  induction tbl with
  | nil => left; rfl
  | cons p rest ih =>
    obtain ⟨k, v⟩ := p
    by_cases hk : k = u
    · by_cases hv : v = ""
      · left; simp [tableGet, hk, jsOrOpt, jsOr, hv]
      · right; simp [tableGet, hk, jsOrOpt, jsOr, hv]
    · rcases ih with h | h
      · left
        rw [tableGet, if_neg hk]
        exact h
      · right
        rw [tableGet, if_neg hk]
        simp only [List.map, List.mem_cons]
        exact Or.inr h

lemma runSpends_eq (k : Nat) : ∀ B : Int, 0 ≤ B →
    (runSpends k B).1 = min k B.toNat ∧ (runSpends k B).2 = max 0 (B - (k : Int)) := by
  induction k with
  | zero =>
    intro B hB
    constructor
    · simp [runSpends]
    · simp [runSpends]; omega
  | succ k ih =>
    intro B hB
    by_cases h : (1 : Int) ≤ B
    · obtain ⟨h1, h2⟩ := ih (B - 1) (by omega)
      simp [runSpends, spend, h]
      exact ⟨by omega, by omega⟩
    · obtain ⟨h1, h2⟩ := ih B hB
      simp [runSpends, spend, h]
      exact ⟨by omega, by omega⟩

/-- A structured result envelope: either a success carrying data or a failure
carrying a structured error body — never both, never neither (spec §7). -/
def ApiEnvelope.structured {α : Type} (e : ApiEnvelope α) : Prop :=
  (e.success = true ∧ e.data.isSome = true ∧ e.error = none) ∨
  (e.success = false ∧ e.data = none ∧ e.error.isSome = true)

/-- A structured text-to-speech HTTP outcome: the audio payload or a
structured failure body (spec §7). -/
def TtsHttpResponse.structured : TtsHttpResponse → Prop
  | .audio _ _ => True
  | .failure b => b.success = false ∧ b.data = none ∧ b.error.isSome = true

/-- Shared reduction for `textToSpeech` on an over-long text when the client is
ready and the user has enough balance: the spend is applied first, then the
length validation fails. -/
lemma ttsOverlongAux (env : Env) (st : ServiceState) (l : Ledger)
    (cap : Except JsError (List Nat)) (dto : TtsDto) (bal : Int)
    (hI : st.isInitialized = true) (hO : st.openai = some ())
    (hu : dto.user_id ≠ "") (ht : dto.text ≠ "")
    (hbal : lookupUser l dto.user_id = some bal) (h1 : 1 ≤ bal)
    (hlen : dto.text.length > 4096) :
    (textToSpeech env st l cap dto).result
      = .error (.badRequest "Text is too long. Maximum length is 4096 characters. Please shorten your text and try again.")
    ∧ (textToSpeech env st l cap dto).ledger = setBalance l dto.user_id (bal - 1)
    ∧ (textToSpeech env st l cap dto).capCalls = 0 := by
  have he := ensure_ready env st hI hO
  have hblt : ¬ (bal < 1) := by omega
  simp [textToSpeech, he, hu, ht, deductTokensForOperation, deductUserTokens,
    TOKEN_COSTS, hbal, hblt, hlen, serviceErrorHandler]

/-! ### Claims -/

/-- Claim C1: for every user with balance B, running k concurrent spend(cost=1)
calls yields exactly min(B, k) successes and a final balance of max(0, B - k);
the balance is never observed negative at any point of the schedule (so no two
calls can have succeeded against the same unit of balance).  The spend is the
spec-modelled atomic compare-and-decrement of §4.2, under which any concurrent
schedule linearizes to a sequence of atomic spend steps. -/
theorem atomic_spend_concurrent (B : Int) (hB : 0 ≤ B) (k : Nat) :
    (runSpends k B).1 = min k B.toNat
    ∧ (runSpends k B).2 = max 0 (B - (k : Int))
    ∧ ∀ j : Nat, 0 ≤ (runSpends j B).2 := by
  refine ⟨(runSpends_eq k B hB).1, (runSpends_eq k B hB).2, fun j => ?_⟩
  have h := (runSpends_eq j B hB).2
  omega

/-- Witness for C1 at B = 2, k = 5: two successes, final balance 0. -/
theorem atomic_spend_concurrent_witness :
    (0 : Int) ≤ 2 ∧ (runSpends 5 2).1 = 2 ∧ (runSpends 5 2).2 = 0 := by
  have h := atomic_spend_concurrent 2 (by decide) 5
  exact ⟨by decide, h.1.trans (by decide), h.2.1.trans (by decide)⟩

/-- Counterexample for C2: with the client ready and user u1 holding 20 tokens,
a synthesize-audio request whose text has 4097 characters fails with the
InvalidInput too-long error, yet the ledger HAS been debited (19 ≠ 20): the
length validation runs after the spend, not before. -/
theorem tts_overlong_charged_cex :
    (textToSpeech envReady stReady [("u1", 20)] (.ok []) ⟨"u1", longText, none⟩).result
      = .error (.badRequest "Text is too long. Maximum length is 4096 characters. Please shorten your text and try again.")
    ∧ (textToSpeech envReady stReady [("u1", 20)] (.ok []) ⟨"u1", longText, none⟩).ledger
      = [("u1", 19)]
    ∧ ([("u1", (19 : Int))] : Ledger) ≠ [("u1", 20)] := by
  have h := ttsOverlongAux envReady stReady [("u1", 20)] (.ok []) ⟨"u1", longText, none⟩ 20
    (by decide) (by decide) (by decide) longText_ne_empty (by decide) (by decide)
    (by show longText.length > 4096; rw [longText_length]; decide)
  refine ⟨h.1, ?_, by decide⟩
  rw [h.2.1]
  decide

/-- Claim C2 (amended): for every synthesize-audio request whose text exceeds
4096 characters, made with the client ready by an existing user with enough
balance, the operation fails with the InvalidInput too-long error and the
capability is never invoked — but the ledger spend has already been applied
(balance decremented by the cost) before the length validation runs. -/
theorem tts_length_checked_after_charge (env : Env) (st : ServiceState) (l : Ledger)
    (cap : Except JsError (List Nat)) (dto : TtsDto) (bal : Int)
    (hI : st.isInitialized = true) (hO : st.openai = some ())
    (hu : dto.user_id ≠ "") (ht : dto.text ≠ "")
    (hbal : lookupUser l dto.user_id = some bal) (h1 : 1 ≤ bal)
    (hlen : dto.text.length > 4096) :
    (textToSpeech env st l cap dto).result
      = .error (.badRequest "Text is too long. Maximum length is 4096 characters. Please shorten your text and try again.")
    ∧ (textToSpeech env st l cap dto).ledger = setBalance l dto.user_id (bal - 1)
    ∧ (textToSpeech env st l cap dto).capCalls = 0 :=
  ttsOverlongAux env st l cap dto bal hI hO hu ht hbal h1 hlen

/-- Witness for C2 (amended) at the concrete over-long request. -/
theorem tts_length_checked_after_charge_witness :
    (textToSpeech envReady stReady [("u1", 20)] (.ok []) ⟨"u1", longText, none⟩).result
      = .error (.badRequest "Text is too long. Maximum length is 4096 characters. Please shorten your text and try again.")
    ∧ (textToSpeech envReady stReady [("u1", 20)] (.ok []) ⟨"u1", longText, none⟩).ledger
      = setBalance [("u1", 20)] "u1" (20 - 1)
    ∧ (textToSpeech envReady stReady [("u1", 20)] (.ok []) ⟨"u1", longText, none⟩).capCalls = 0 :=
  tts_length_checked_after_charge envReady stReady [("u1", 20)] (.ok []) ⟨"u1", longText, none⟩ 20
    (by decide) (by decide) (by decide) longText_ne_empty (by decide) (by decide)
    (by show longText.length > 4096; rw [longText_length]; decide)

/-- Claim C4: `createUser` fails with the already-exists error when the user is
present, leaving the ledger unchanged; otherwise it inserts a new document with
the fixed initial grant of 20 tokens.  Creating the same user twice makes the
second call fail and leaves the first call's grant untouched (Scenario C). -/
theorem createUser_already_exists_spec (l : Ledger) (u : String) :
    (userExists l u = true →
      firestoreCreateUser l u = (.error "Failed to create user: User already exists", l))
    ∧ (userExists l u = false →
      firestoreCreateUser l u = (.ok ("doc-" ++ u), l ++ [(u, 20)])
      ∧ lookupUser (firestoreCreateUser l u).2 u = some 20
      ∧ firestoreCreateUser (firestoreCreateUser l u).2 u
          = (.error "Failed to create user: User already exists", (firestoreCreateUser l u).2)) := by
  constructor
  · intro h
    simp [firestoreCreateUser, h]
  · intro h
    have hnone : lookupUser l u = none := by
      cases hc : lookupUser l u with
      | none => rfl
      | some b =>
        unfold userExists at h
        rw [hc] at h
        simp at h
    have hmem : lookupUser (l ++ [(u, 20)]) u = some 20 :=
      lookupUser_append_self l u 20 hnone
    have h2 : (firestoreCreateUser l u).2 = l ++ [(u, 20)] := by
      simp [firestoreCreateUser, h]
    have hex : userExists (l ++ [(u, 20)]) u = true := by
      unfold userExists
      rw [hmem]
      rfl
    refine ⟨by simp [firestoreCreateUser, h], ?_, ?_⟩
    · rw [h2]
      exact hmem
    · rw [h2]
      simp [firestoreCreateUser, hex]

/-- Witness for C4: creating u1 in the empty ledger grants 20 tokens; creating
u1 again fails with the already-exists error and leaves the ledger unchanged. -/
theorem createUser_already_exists_spec_witness :
    firestoreCreateUser [] "u1" = (.ok ("doc-" ++ "u1"), [("u1", 20)])
    ∧ lookupUser (firestoreCreateUser [] "u1").2 "u1" = some 20
    ∧ firestoreCreateUser (firestoreCreateUser [] "u1").2 "u1"
        = (.error "Failed to create user: User already exists", (firestoreCreateUser [] "u1").2) :=
  (createUser_already_exists_spec [] "u1").2 (by decide)

/-- Counterexample for C3: when no client is available (no credential was
configured), an enhance request with the user identifier absent does NOT fail
with the missing-field InvalidInput error — it fails with the
capability-unavailable error instead, because the client check runs before the
field validation.  (No spend and no capability invocation occur either way.) -/
theorem missing_field_unavailable_cex :
    (enhancePrompt envNoKey stNoKey [("u1", 20)] (.ok (some "x")) ⟨"", "hi", none⟩).result
      = .error (.badRequest "AI service is currently unavailable. Please try again later.")
    ∧ isMissingFieldInvalidInput
        (.badRequest "AI service is currently unavailable. Please try again later.") = false
    ∧ isMissingFieldInvalidInput
        (.badRequest "User ID is required to perform this operation.") = true := by
  decide

/-- Claim C3 (amended): provided the capability client is initialized, every
request to any of the three operations with the user identifier or the primary
content field absent fails with the corresponding InvalidInput error, with the
ledger untouched and zero capability invocations. -/
theorem validation_first_when_client_ready (env : Env) (st : ServiceState) (l : Ledger)
    (capE capG : Except JsError (Option String)) (capT : Except JsError (List Nat))
    (de : EnhanceDto) (dg : GenerateDto) (dt : TtsDto)
    (hI : st.isInitialized = true) (hO : st.openai = some ()) :
    (de.user_id = "" →
      (enhancePrompt env st l capE de).result
        = .error (.badRequest "User ID is required to perform this operation.")
      ∧ (enhancePrompt env st l capE de).ledger = l
      ∧ (enhancePrompt env st l capE de).capCalls = 0)
    ∧ (de.user_id ≠ "" → de.prompt = "" →
      (enhancePrompt env st l capE de).result
        = .error (.badRequest "Prompt text is required for enhancement.")
      ∧ (enhancePrompt env st l capE de).ledger = l
      ∧ (enhancePrompt env st l capE de).capCalls = 0)
    ∧ (dg.user_id = "" →
      (generateResponse env st l capG dg).result
        = .error (.badRequest "User ID is required to perform this operation.")
      ∧ (generateResponse env st l capG dg).ledger = l
      ∧ (generateResponse env st l capG dg).capCalls = 0)
    ∧ (dg.user_id ≠ "" → dg.content = "" →
      (generateResponse env st l capG dg).result
        = .error (.badRequest "Content is required to generate a response.")
      ∧ (generateResponse env st l capG dg).ledger = l
      ∧ (generateResponse env st l capG dg).capCalls = 0)
    ∧ (dt.user_id = "" →
      (textToSpeech env st l capT dt).result
        = .error (.badRequest "User ID is required to perform this operation.")
      ∧ (textToSpeech env st l capT dt).ledger = l
      ∧ (textToSpeech env st l capT dt).capCalls = 0)
    ∧ (dt.user_id ≠ "" → dt.text = "" →
      (textToSpeech env st l capT dt).result
        = .error (.badRequest "Text content is required for text-to-speech conversion.")
      ∧ (textToSpeech env st l capT dt).ledger = l
      ∧ (textToSpeech env st l capT dt).capCalls = 0) := by
  have he := ensure_ready env st hI hO
  refine ⟨?_, ?_, ?_, ?_, ?_, ?_⟩
  · intro h
    simp [enhancePrompt, he, h, serviceErrorHandler]
  · intro h1 h2
    simp [enhancePrompt, he, h1, h2, serviceErrorHandler]
  · intro h
    simp [generateResponse, he, h, serviceErrorHandler]
  · intro h1 h2
    simp [generateResponse, he, h1, h2, serviceErrorHandler]
  · intro h
    simp [textToSpeech, he, h, serviceErrorHandler]
  · intro h1 h2
    simp [textToSpeech, he, h1, h2, serviceErrorHandler]

/-- Witness for C3 (amended): concrete requests with missing fields against a
ready client. -/
theorem validation_first_when_client_ready_witness :
    (enhancePrompt envReady stReady [("u1", 20)] (.ok none) ⟨"", "p", none⟩).result
      = .error (.badRequest "User ID is required to perform this operation.")
    ∧ (enhancePrompt envReady stReady [("u1", 20)] (.ok none) ⟨"", "p", none⟩).ledger
      = [("u1", 20)]
    ∧ (generateResponse envReady stReady [("u1", 20)] (.ok none) ⟨"u1", "", none⟩).result
      = .error (.badRequest "Content is required to generate a response.")
    ∧ (textToSpeech envReady stReady [("u1", 20)] (.ok []) ⟨"u1", "", none⟩).result
      = .error (.badRequest "Text content is required for text-to-speech conversion.") := by
  have h := validation_first_when_client_ready envReady stReady [("u1", 20)]
    (.ok none) (.ok none) (.ok []) ⟨"", "p", none⟩ ⟨"u1", "", none⟩ ⟨"u1", "", none⟩
    (by decide) (by decide)
  exact ⟨(h.1 rfl).1, (h.1 rfl).2.1,
    (h.2.2.2.1 (by decide) rfl).1, (h.2.2.2.2.2 (by decide) rfl).1⟩

/-- Counterexample for C5: the deduction error classifier and the service error
handler both discriminate on the human-readable message text, so two failures
carrying identical tags (a failed deduction result, respectively a plain error
with no status and no code) but different message texts receive different
classes. -/
theorem classification_message_dependent_cex :
    classifyDeductionFailure "User not found" = "USER_NOT_FOUND"
    ∧ classifyDeductionFailure "The user was not located" = "UNKNOWN_ERROR"
    ∧ ("USER_NOT_FOUND" : String) ≠ "UNKNOWN_ERROR"
    ∧ serviceErrorHandler (.jsError "request timeout after 30000 ms" none none) "enhance prompt"
      = .badRequest "AI service request timed out. Please try again."
    ∧ serviceErrorHandler (.jsError "socket closed" none none) "enhance prompt"
      = .badRequest "Failed to enhance prompt. Please try again later." := by
  decide

/-- Claim C5 (amended): error classification is performed by substring matching
on the human-readable message, not by typed/tagged discrimination alone: a
failed deduction is classed USER_NOT_FOUND exactly when its message contains
'User not found', INSUFFICIENT_TOKENS when it contains 'Insufficient tokens'
(and not the former), and UNKNOWN_ERROR otherwise; likewise a status-less,
code-less failure whose message contains 'timeout' is classed as a timeout. -/
theorem classification_by_message_substrings (m op : String) :
    (strIncludes m "User not found" = true →
      classifyDeductionFailure m = "USER_NOT_FOUND")
    ∧ (strIncludes m "User not found" = false →
      strIncludes m "Insufficient tokens" = true →
      classifyDeductionFailure m = "INSUFFICIENT_TOKENS")
    ∧ (strIncludes m "User not found" = false →
      strIncludes m "Insufficient tokens" = false →
      classifyDeductionFailure m = "UNKNOWN_ERROR")
    ∧ (strIncludes m "timeout" = true →
      serviceErrorHandler (.jsError m none none) op
        = .badRequest "AI service request timed out. Please try again.") := by
  refine ⟨?_, ?_, ?_, ?_⟩
  · intro h
    simp [classifyDeductionFailure, h]
  · intro h1 h2
    simp [classifyDeductionFailure, h1, h2]
  · intro h1 h2
    simp [classifyDeductionFailure, h1, h2]
  · intro h
    simp [serviceErrorHandler, h]

/-- Witness for C5 (amended): a message carrying the insufficient-tokens
substring is classed INSUFFICIENT_TOKENS; a message carrying 'timeout' is
classed as the timeout failure. -/
theorem classification_by_message_substrings_witness :
    classifyDeductionFailure "Insufficient tokens for this operation" = "INSUFFICIENT_TOKENS"
    ∧ serviceErrorHandler (.jsError "upstream timeout" none none) "generate response"
      = .badRequest "AI service request timed out. Please try again." := by
  have h := classification_by_message_substrings "Insufficient tokens for this operation" "generate response"
  have h2 := classification_by_message_substrings "upstream timeout" "generate response"
  exact ⟨h.2.1 (by decide) (by decide), h2.2.2.2 (by decide)⟩

/-- Claim C6: for every request to the three operations and to the health
probe — whatever the environment, service state, ledger contents and capability
behavior, i.e. for every failure the ledger, the client factory or the
capability can raise — the controller returns a structured result envelope
(success with data, or failure with a structured error body); the health probe
never propagates a fault (`Except.error`) out of the controller. -/
theorem dispatcher_structured_results (env : Env) (st : ServiceState) (l : Ledger)
    (capE capG : Except JsError (Option String)) (capT : Except JsError (List Nat))
    (de : EnhanceDto) (dg : GenerateDto) (dt : TtsDto) :
    (controllerEnhancePrompt env st l capE de).1.structured
    ∧ (controllerGenerateResponse env st l capG dg).1.structured
    ∧ (controllerTextToSpeech env st l capT dt).1.structured
    ∧ (controllerHealthCheck env st).1
        = .ok ⟨true, some (healthCheck env st).1, none, "Health check completed"⟩ := by
  refine ⟨?_, ?_, ?_, rfl⟩
  · cases h : (enhancePrompt env st l capE de).result <;>
      simp [controllerEnhancePrompt, h, ApiEnvelope.structured]
  · cases h : (generateResponse env st l capG dg).result <;>
      simp [controllerGenerateResponse, h, ApiEnvelope.structured]
  · cases h : (textToSpeech env st l capT dt).result <;>
      simp [controllerTextToSpeech, h, TtsHttpResponse.structured]

/-- Counterexample for C7: the constructor ran with no credential, caching the
settled initialization promise; a later `ensureOpenAIInitialized` call made
after a credential HAS appeared still fails with the unavailable error, because
the cached promise is never cleared and the initialization never re-runs — the
failure is not retryable by configuring the credential later. -/
theorem ensureReady_no_retry_cex :
    (ensureOpenAIInitialized ⟨some "sk-new", true⟩ (constructorInit ⟨none, true⟩)).1
      = .error (.serviceUnavailable "OpenAI service is not available. Please check your configuration.") := by
  decide

/-- Claim C7 (amended): when no credential is configured, the constructor
initialization completes without throwing (non-fatal) and `ensureReady` fails
with the CapabilityUnavailable error (`ServiceUnavailableException`) rather
than a generic error; however the initialization outcome is cached, so a later
call under ANY environment — including one where the credential has appeared —
still fails with the same CapabilityUnavailable error. -/
theorem ensureReady_missing_credential (env later : Env) (h : env.apiKey = none) :
    (initializeOpenAI env initialServiceState).1 = .ok ()
    ∧ (ensureOpenAIInitialized env (constructorInit env)).1
        = .error (.serviceUnavailable "OpenAI service is not available. Please check your configuration.")
    ∧ (ensureOpenAIInitialized later ((ensureOpenAIInitialized env (constructorInit env)).2)).1
        = .error (.serviceUnavailable "OpenAI service is not available. Please check your configuration.") := by
  refine ⟨?_, ?_, ?_⟩ <;>
    simp [constructorInit, initializeOpenAI, performInitialization,
      initialServiceState, ensureOpenAIInitialized, h]

/-- Witness for C7 (amended): the missing-credential environment, then an
environment with a credential. -/
theorem ensureReady_missing_credential_witness :
    (initializeOpenAI envNoKey initialServiceState).1 = .ok ()
    ∧ (ensureOpenAIInitialized envNoKey (constructorInit envNoKey)).1
        = .error (.serviceUnavailable "OpenAI service is not available. Please check your configuration.")
    ∧ (ensureOpenAIInitialized envReady ((ensureOpenAIInitialized envNoKey (constructorInit envNoKey)).2)).1
        = .error (.serviceUnavailable "OpenAI service is not available. Please check your configuration.") :=
  ensureReady_missing_credential envNoKey envReady rfl

/-- Claim C8: for both operation kinds with a sub-type table, looking up an
unknown sub-type deterministically yields the designated general entry, a
missing sub-type defaults to the general entry, and every lookup — known or
unknown — yields an entry of the catalog, never an error. -/
theorem catalog_unknown_falls_back_general (t : String)
    (hE : tableGet enhancementPromptTable t = none)
    (hR : tableGet responsePromptTable t = none) :
    getEnhancementSystemPrompt t = generalEnhancementPrompt
    ∧ getResponseSystemPrompt t = generalResponsePrompt
    ∧ enhancementSystemPromptFor none = generalEnhancementPrompt
    ∧ responseSystemPromptFor none = generalResponsePrompt
    ∧ (∀ u : String, getEnhancementSystemPrompt u ∈ enhancementPromptTable.map Prod.snd)
    ∧ (∀ u : String, getResponseSystemPrompt u ∈ responsePromptTable.map Prod.snd) := by
  refine ⟨?_, ?_, rfl, rfl, ?_, ?_⟩
  · simp [getEnhancementSystemPrompt, hE, jsOrOpt]
  · simp [getResponseSystemPrompt, hR, jsOrOpt]
  · intro u
    rcases tableGet_general_or_mem enhancementPromptTable u generalEnhancementPrompt with hc | hc
    · show jsOrOpt (tableGet enhancementPromptTable u) generalEnhancementPrompt
        ∈ enhancementPromptTable.map Prod.snd
      rw [hc]
      exact List.mem_cons_self _ _
    · exact hc
  · intro u
    rcases tableGet_general_or_mem responsePromptTable u generalResponsePrompt with hc | hc
    · show jsOrOpt (tableGet responsePromptTable u) generalResponsePrompt
        ∈ responsePromptTable.map Prod.snd
      rw [hc]
      exact List.mem_cons_self _ _
    · exact hc

/-- Witness for C8 at the unknown sub-type "story". -/
theorem catalog_unknown_falls_back_general_witness :
    getEnhancementSystemPrompt "story" = generalEnhancementPrompt
    ∧ getResponseSystemPrompt "story" = generalResponsePrompt
    ∧ enhancementSystemPromptFor none = generalEnhancementPrompt := by
  have h := catalog_unknown_falls_back_general "story" (by decide) (by decide)
  exact ⟨h.1, h.2.1, h.2.2.1⟩

/-- Counterexample for C9: two enhance requests by the same funded user whose
capability call produced no usable content succeed with DIFFERENT substituted
values — each gets its own original prompt back — so the fallback for the
enhance kind is not a fixed value shared by every such request. -/
theorem fallback_not_fixed_cex :
    (enhancePrompt envReady stReady [("u1", 20)] (.ok none) ⟨"u1", "first prompt", none⟩).result
      = .ok "first prompt"
    ∧ (enhancePrompt envReady stReady [("u1", 20)] (.ok none) ⟨"u1", "second prompt", none⟩).result
      = .ok "second prompt"
    ∧ ("first prompt" : String) ≠ "second prompt" := by
  decide

/-- Claim C9 (amended): when the capability returns no usable content (absent
or empty), the operation still succeeds and substitutes a fallback — for the
generate kind the fixed string 'Unable to generate response', but for the
enhance kind the request's own original prompt, which varies per request. -/
theorem fallback_on_no_content (env : Env) (st : ServiceState) (l : Ledger)
    (c : Option String) (de : EnhanceDto) (dg : GenerateDto) (balE balG : Int)
    (hI : st.isInitialized = true) (hO : st.openai = some ())
    (hc : c = none ∨ c = some "")
    (huE : de.user_id ≠ "") (hpE : de.prompt ≠ "")
    (hbE : lookupUser l de.user_id = some balE) (h1E : 1 ≤ balE)
    (huG : dg.user_id ≠ "") (hcG : dg.content ≠ "")
    (hbG : lookupUser l dg.user_id = some balG) (h1G : 1 ≤ balG) :
    (enhancePrompt env st l (.ok c) de).result = .ok de.prompt
    ∧ (generateResponse env st l (.ok c) dg).result = .ok "Unable to generate response" := by
  have he := ensure_ready env st hI hO
  have hbltE : ¬ (balE < 1) := by omega
  have hbltG : ¬ (balG < 1) := by omega
  constructor
  · rcases hc with rfl | rfl <;>
      simp [enhancePrompt, he, huE, hpE, deductTokensForOperation, deductUserTokens,
        TOKEN_COSTS, hbE, hbltE, jsOrOpt, jsOr, hpE]
  · rcases hc with rfl | rfl <;>
      simp [generateResponse, he, huG, hcG, deductTokensForOperation, deductUserTokens,
        TOKEN_COSTS, hbG, hbltG, jsOrOpt, jsOr]

/-- Witness for C9 (amended) with an empty completion content. -/
theorem fallback_on_no_content_witness :
    (enhancePrompt envReady stReady [("u1", 20)] (.ok (some "")) ⟨"u1", "p0", none⟩).result
      = .ok "p0"
    ∧ (generateResponse envReady stReady [("u1", 20)] (.ok (some "")) ⟨"u1", "c0", none⟩).result
      = .ok "Unable to generate response" :=
  fallback_on_no_content envReady stReady [("u1", 20)] (some "") ⟨"u1", "p0", none⟩
    ⟨"u1", "c0", none⟩ 20 20 (by decide) (by decide) (Or.inr rfl)
    (by decide) (by decide) (by decide) (by decide)
    (by decide) (by decide) (by decide) (by decide)

/-- Claim C10: every successful call to the create-user endpoint reports a
token balance of 0 (`data.tokens = 0`, message 'User created successfully with
0 tokens') while the ledger document actually stored for the new user holds 20
tokens; the reported balance never equals the stored grant. -/
theorem createUser_endpoint_reports_zero (l : Ledger) (u : String)
    (h : userExists l u = false) :
    (controllerCreateUser l u).1.success = true
    ∧ (controllerCreateUser l u).1.message = "User created successfully with 0 tokens"
    ∧ (controllerCreateUser l u).1.data = some ⟨"doc-" ++ u, u, 0⟩
    ∧ lookupUser (controllerCreateUser l u).2 u = some 20
    ∧ Option.map CreateUserData.tokens (controllerCreateUser l u).1.data
        ≠ lookupUser (controllerCreateUser l u).2 u := by
  have hnone : lookupUser l u = none := by
    cases hc : lookupUser l u with
    | none => rfl
    | some b =>
      unfold userExists at h
      rw [hc] at h
      simp at h
  have hmem : lookupUser (l ++ [(u, 20)]) u = some 20 :=
    lookupUser_append_self l u 20 hnone
  have hred : controllerCreateUser l u
      = (⟨true, "User created successfully with 0 tokens", some ⟨"doc-" ++ u, u, 0⟩⟩,
         l ++ [(u, 20)]) := by
    simp [controllerCreateUser, firestoreCreateUser, h]
  rw [hred]
  refine ⟨rfl, rfl, rfl, hmem, ?_⟩
  rw [hmem]
  simp

/-- Witness for C10: creating u1 in the empty ledger reports 0 tokens while
storing 20. -/
theorem createUser_endpoint_reports_zero_witness :
    (controllerCreateUser [] "u1").1.success = true
    ∧ (controllerCreateUser [] "u1").1.message = "User created successfully with 0 tokens"
    ∧ (controllerCreateUser [] "u1").1.data = some ⟨"doc-" ++ "u1", "u1", 0⟩
    ∧ lookupUser (controllerCreateUser [] "u1").2 "u1" = some 20
    ∧ Option.map CreateUserData.tokens (controllerCreateUser [] "u1").1.data
        ≠ lookupUser (controllerCreateUser [] "u1").2 "u1" :=
  createUser_endpoint_reports_zero [] "u1" (by decide)

end Scizor
